import Mathlib

/-!
Shallow embedding of `src/adapt_embed/models/linear/run_linear_launcher.py`.

The launcher expands hyperparameter grids into variant dictionaries,
and for each variant trains and evaluates four linear adapter
configurations on top of a frozen sentence-embedding model, resuming
from checkpoint files when they exist, logging losses and evaluation
results, and finally plotting the adapted results against a baseline.

External library calls (SentenceTransformer, LinearAdapter.fit, MTEB
evaluation, torch checkpoint loading) are modelled by an oracle `World`; the
launcher's own control flow is embedded faithfully, producing a trace
of the observable events it performs together with the Python
exception it raises, if any.
-/

namespace AdaptEmbed

/-- Values occurring in the hyperparameter grid dictionaries of `__main__`. -/
inductive Val where
  | s (v : String)
  | q (v : ℚ)
  | n (v : ℕ)
deriving DecidableEq, Repr

/-- A variant dictionary: an association list from key to value, in insertion order. -/
abbrev VDict := List (String × Val)

/-- Modelled from the spec: `launchkit.sweeper.DeterministicHyperparameterSweeper`
is not under `src/`.  Per the spec it is "a deterministic Cartesian-product
generator over configuration dictionaries": it expands a dictionary mapping each
key to a list of values into the list of all dictionaries choosing one value per
key, earlier keys varying more slowly. -/
def sweepGrid : List (String × List Val) → List VDict
  | [] => [[]]
  | (k, vs) :: rest => vs.flatMap fun v => (sweepGrid rest).map fun d => (k, v) :: d

/-- The triplet-loss grid dictionary from `__main__` of the launcher. -/
def tripletGrid : List (String × List Val) :=
  [("model_name", [.s "all-MiniLM-L6-v2"]),
   ("task", [.s "CQADupstackEnglishRetrieval"]),
   ("split", [.s "test"]),
   ("num_epochs", [.n 15]),
   ("lr", [.q (1/100), .q (3/1000), .q (1/1000), .q (3/10000)]),
   ("batch_size", [.n 256]),
   ("triplet_margin", [.q (1/3), .q 1, .q 3]),
   ("loss_type", [.s "triplet"]),
   ("data_augmentation_threshold", [.n 5])]

/-- The pairwise (mse/bce) grid dictionary from `__main__` of the launcher. -/
def pairwiseGrid : List (String × List Val) :=
  [("model_name", [.s "all-MiniLM-L6-v2"]),
   ("task", [.s "CQADupstackEnglishRetrieval"]),
   ("split", [.s "test"]),
   ("num_epochs", [.n 15]),
   ("lr", [.q (1/100), .q (3/1000), .q (1/1000), .q (3/10000)]),
   ("batch_size", [.n 256]),
   ("loss_type", [.s "mse", .s "bce"]),
   ("data_augmentation_threshold", [.n 5])]

/-- The `variants_list` of `__main__`: the triplet grid followed by the pairwise grid. -/
def variants_list : List (List (String × List Val)) := [tripletGrid, pairwiseGrid]

/-- The launcher's variant expansion: the list comprehension
`[variant for variants in variants_list for variant in Sweeper(variants).iterate_hyperparameters()]`. -/
def expandVariants (vl : List (List (String × List Val))) : List VDict :=
  vl.flatMap sweepGrid

/-- The concrete `variants` list built in `__main__`. -/
def mainVariants : List VDict := expandVariants variants_list

/-- Value stored under the key `loss_type` in a variant dictionary, if any. -/
def lossOf (d : VDict) : Option Val :=
  (d.find? fun p => p.1 == "loss_type").map Prod.snd

/-- A variant as consumed by `run_experiment`: the dictionary keys it reads,
with `variant.get` defaults (`triplet_margin` and `force` default to
`None`/`False`) made explicit as `Option`/default-valued fields. -/
structure Variant where
  model_name : String
  task : String
  split : String
  num_epochs : ℕ
  lr : ℚ
  batch_size : ℕ
  triplet_margin : Option ℚ
  loss_type : String
  data_negative_sampling : Bool
  data_synthetic_gen : Bool
  data_augmentation_threshold : ℕ
  force : Bool
deriving DecidableEq, Repr

/-- The two dataset classes the launcher can construct. -/
inductive DatasetKind where
  | tripletDataset
  | pairwiseScoreDataset
deriving DecidableEq, Repr

/-- Python exceptions that `run_experiment` can raise. -/
inductive PyError where
  | valueError (msg : String)
  | indexError
deriving DecidableEq, Repr

/-- Observable events performed by `run_experiment`, in program order.
`fit` records the adapter-type label, the weights-file path and the linear
layer's weight/bias at the moment `fit` is called; `logRow` records one
`record_dict`/`dump_tabular` row (epoch, loss, and the extra result keys in
the row, empty for loss-only rows); `getBaseline` records the
`get_mteb_results` call on the unadapted base model; `plot` records the
ordered (results-tag, label) series handed to `plot_comparison`. -/
inductive Event where
  | loadModel (name : String)
  | freezeParams
  | constructAdapter (ctx : String) (queryOnly separateEmbeddings : Bool)
  | makedirs (weightsFile : String)
  | loadStateDict (atype weightsFile : String)
  | constructDataset (kind : DatasetKind)
  | fit (atype weightsFile : String) (startW startB : ℚ)
  | evaluate (atype : String)
  | logRow (epoch : ℤ) (loss : ℚ) (extraKeys : List String)
  | copyWeights (srcW srcB : ℚ)
  | getBaseline (path : String)
  | plot (series : List (String × String))
deriving DecidableEq, Repr

/-- Oracle for the external libraries: which files exist on disk, what
`adapted_model.fit` returns (per-epoch losses) and leaves as the linear
layer's weight/bias, what `torch.load` restores, how `LinearAdapter`
initialises its linear layer, and which result keys evaluation produces. -/
structure World where
  fileExists : String → Bool
  fitLosses : String → List ℚ
  fitW : String → ℚ
  fitB : String → ℚ
  loadW : String → ℚ
  loadB : String → ℚ
  initW : String → ℚ
  initB : String → ℚ
  evalKeys : String → List String

/-- The freezing loop `for p in model.parameters(): p.requires_grad = False`,
with each parameter represented by its `requires_grad` flag. -/
def freezeLoop (ps : List Bool) : List Bool := ps.map fun _ => false

/-- Modelled from the spec: `LocalLogger` and `logger.get_snapshot_dir` are not
under `src/`.  Per the spec's "per-variant directory/logging isolation", each
`with LocalLogger('adapter_type', value, variant)` context has its own snapshot
directory keyed by the `adapter_type` value. -/
def snapshotDir (atype : String) : String := "logs/adapter_type_" ++ atype

/-- The weights path used inside the `query_adapted` logger context. -/
def qaFile : String := snapshotDir "query_adapted" ++ "/weights_query_adapted.pt"

/-- The weights path used inside the `adapted` logger context. -/
def adFile : String := snapshotDir "adapted" ++ "/weights.pt"

/-- The weights path used inside the `query_first` logger context. -/
def qfFile : String := snapshotDir "query_first" ++ "/weights_query_first.pt"

/-- The weights path used inside the `separate` logger context. -/
def sepFile : String := snapshotDir "separate" ++ "/weights_separate.pt"

/-- Path of the baseline results file `os.path.join(proj_dir, 'results', model_name, task + ".json")`. -/
def baselinePath (v : Variant) : String :=
  "results/" ++ v.model_name ++ "/" ++ v.task ++ ".json"

/-- The ordered (results-tag, label) series passed to `plot_comparison`. -/
def plotSeries : List (String × String) :=
  [("baseline", "Baseline"),
   ("adapted", "Linear (Joint)"),
   ("query_adapted", "Linear (Query-Only)"),
   ("query_first", "Linear (Query-First)"),
   ("separate", "Linear (Separate)")]

/-- Which dataset class `get_dataset` constructs: `TripletDataset` for triplet
loss, `PairwiseScoreDataset` otherwise. -/
def datasetFor (v : Variant) : DatasetKind :=
  if v.loss_type = "triplet" then .tripletDataset else .pairwiseScoreDataset

/-- The closure `get_dataset` with its `nonlocal dataset` memo: given the memo
cell, it returns the dataset, the updated memo cell, and the construction
events performed (construction happens only when the cell is empty). -/
def get_dataset (v : Variant) (ds : Option DatasetKind) :
    DatasetKind × Option DatasetKind × List Event :=
  match ds with
  | some d => (d, some d, [])
  | none => (datasetFor v, some (datasetFor v), [.constructDataset (datasetFor v)])

/-- Result of one `train_and_evaluate` call: the accumulated event trace, the
updated dataset memo cell, the exception raised (if any), and the adapted
model's linear weight/bias after the call. -/
structure TEResult where
  events : List Event
  dataset : Option DatasetKind
  error : Option PyError
  finalW : ℚ
  finalB : ℚ
deriving Repr

/-- The inner function `train_and_evaluate(adapted_model, weights_file,
adapter_type, force=False)`.  `startW`/`startB` are the adapted model's linear
weight/bias when the call is made.  On the resume branch `losses` stays `[]`,
so the first `logger.record_dict` evaluates `losses[-1]` on an empty list and
raises `IndexError`; the same happens on the training branch if `fit` returns
no losses. -/
def train_and_evaluate (w : World) (v : Variant) (acc : List Event)
    (ds : Option DatasetKind) (startW startB : ℚ)
    (weightsFile atype : String) (force : Bool) : TEResult :=
  let acc₀ := acc ++ [.makedirs weightsFile]
  if w.fileExists weightsFile && !force then
    { events := acc₀ ++ [.loadStateDict atype weightsFile, .evaluate atype],
      dataset := ds, error := some .indexError,
      finalW := w.loadW weightsFile, finalB := w.loadB weightsFile }
  else
    let r := get_dataset v ds
    let losses := w.fitLosses weightsFile
    let acc₁ := acc₀ ++ r.2.2 ++ [.fit atype weightsFile startW startB, .evaluate atype]
    match losses.getLast? with
    | none =>
        { events := acc₁, dataset := r.2.1, error := some .indexError,
          finalW := w.fitW weightsFile, finalB := w.fitB weightsFile }
    | some lastLoss =>
        { events := acc₁
            ++ [.logRow ((v.num_epochs : ℤ) - 1) lastLoss (w.evalKeys atype)]
            ++ losses.dropLast.enum.map (fun p => .logRow (p.1 : ℤ) p.2 []),
          dataset := r.2.1, error := none,
          finalW := w.fitW weightsFile, finalB := w.fitB weightsFile }

/-- The body of `run_experiment(variant)`: validates the variant, loads and
freezes the base model, then runs the four adapter contexts in order
(query-only, joint, query-first with warm start, separate), and finally fetches
the baseline results and calls `plot_comparison`.  An exception aborts the run,
returning the trace accumulated so far. -/
def run_experiment (w : World) (v : Variant) : List Event × Option PyError :=
  if v.triplet_margin = none ∧ v.loss_type = "triplet" then
    ([], some (.valueError "Must provide triplet_margin if using triplet loss."))
  else if ¬ v.loss_type ∈ ["triplet", "mse", "bce"] then
    ([], some (.valueError ("Invalid loss type: " ++ v.loss_type)))
  else
    let acc := [Event.loadModel v.model_name, Event.freezeParams,
                Event.constructAdapter "query_adapted" true false]
    let r1 := train_and_evaluate w v acc none
                (w.initW "query_adapted") (w.initB "query_adapted")
                qaFile "Query-Adapted" false
    match r1.error with
    | some e => (r1.events, some e)
    | none =>
      let r2 := train_and_evaluate w v
                  (r1.events ++ [Event.constructAdapter "adapted" false false])
                  r1.dataset (w.initW "adapted") (w.initB "adapted")
                  adFile "Joint" false
      match r2.error with
      | some e => (r2.events, some e)
      | none =>
        let r3 := train_and_evaluate w v
                    (r2.events ++ [Event.constructAdapter "query_first" false false,
                                   Event.copyWeights r1.finalW r1.finalB])
                    r2.dataset r1.finalW r1.finalB
                    qfFile "Query-First" false
        match r3.error with
        | some e => (r3.events, some e)
        | none =>
          let r4 := train_and_evaluate w v
                      (r3.events ++ [Event.constructAdapter "separate" false true])
                      r3.dataset (w.initW "separate") (w.initB "separate")
                      sepFile "Separate" false
          match r4.error with
          | some e => (r4.events, some e)
          | none =>
            (r4.events ++ [Event.getBaseline (baselinePath v), Event.plot plotSeries],
             none)

/-- The loss-logging rows emitted at the end of a training `train_and_evaluate`
call: the final epoch's row (with all evaluation-result keys) first, then one
loss-only row per earlier epoch, in increasing epoch order. -/
def logRowsFor (w : World) (v : Variant) (file atype : String) : List Event :=
  match (w.fitLosses file).getLast? with
  | none => []
  | some lastLoss =>
      Event.logRow ((v.num_epochs : ℤ) - 1) lastLoss (w.evalKeys atype) ::
        (w.fitLosses file).dropLast.enum.map (fun p => Event.logRow (p.1 : ℤ) p.2 [])

/-- The events one training-branch `train_and_evaluate` call appends:
mkdir, dataset construction when the memo cell is still empty, fit,
evaluation, and the log rows. -/
def teEventsFit (w : World) (v : Variant) (dsNew : Bool) (sW sB : ℚ)
    (file atype : String) : List Event :=
  [.makedirs file]
    ++ (if dsNew then [.constructDataset (datasetFor v)] else [])
    ++ [.fit atype file sW sB, .evaluate atype]
    ++ logRowsFor w v file atype

/-- The full event trace of a fresh, exception-free `run_experiment` run. -/
def freshEvents (w : World) (v : Variant) : List Event :=
  [.loadModel v.model_name, .freezeParams, .constructAdapter "query_adapted" true false]
    ++ teEventsFit w v true (w.initW "query_adapted") (w.initB "query_adapted") qaFile "Query-Adapted"
    ++ [.constructAdapter "adapted" false false]
    ++ teEventsFit w v false (w.initW "adapted") (w.initB "adapted") adFile "Joint"
    ++ [.constructAdapter "query_first" false false,
        .copyWeights (w.fitW qaFile) (w.fitB qaFile)]
    ++ teEventsFit w v false (w.fitW qaFile) (w.fitB qaFile) qfFile "Query-First"
    ++ [.constructAdapter "separate" false true]
    ++ teEventsFit w v false (w.initW "separate") (w.initB "separate") sepFile "Separate"
    ++ [.getBaseline (baselinePath v), .plot plotSeries]

theorem train_and_evaluate_resume (w : World) (v : Variant) (acc : List Event)
    (ds : Option DatasetKind) (sW sB : ℚ) (file atype : String)
    (hEx : w.fileExists file = true) :
    train_and_evaluate w v acc ds sW sB file atype false =
      { events := acc ++ [.makedirs file, .loadStateDict atype file, .evaluate atype],
        dataset := ds, error := some .indexError,
        finalW := w.loadW file, finalB := w.loadB file } := by
  simp [train_and_evaluate, hEx]

theorem train_and_evaluate_fresh (w : World) (v : Variant) (acc : List Event)
    (ds : Option DatasetKind) (sW sB : ℚ) (file atype : String)
    (hEx : w.fileExists file = false) (hL : w.fitLosses file ≠ []) :
    train_and_evaluate w v acc ds sW sB file atype false =
      { events := acc ++ teEventsFit w v ds.isNone sW sB file atype,
        dataset := some (ds.getD (datasetFor v)), error := none,
        finalW := w.fitW file, finalB := w.fitB file } := by
  have h1 : (w.fitLosses file).getLast?.isSome := List.getLast?_isSome.mpr hL
  obtain ⟨L, hGL⟩ := Option.isSome_iff_exists.mp h1
  cases ds <;>
    simp [train_and_evaluate, teEventsFit, get_dataset, logRowsFor, hEx, hGL]

theorem run_experiment_fresh (w : World) (v : Variant)
    (hM : ¬(v.triplet_margin = none ∧ v.loss_type = "triplet"))
    (hLT : v.loss_type ∈ ["triplet", "mse", "bce"])
    (hEx : ∀ p, w.fileExists p = false)
    (hL : ∀ p, w.fitLosses p ≠ []) :
    run_experiment w v = (freshEvents w v, none) := by
  unfold run_experiment
  rw [if_neg hM, if_neg (not_not_intro hLT)]
  simp only [train_and_evaluate_fresh, hEx, hL, ne_eq, not_false_iff,
    Option.isNone_none, Option.isNone_some, Option.getD_none, Option.getD_some]
  simp [freshEvents, List.append_assoc]

/-- Recogniser for `fit` events. -/
def isFit : Event → Bool
  | .fit _ _ _ _ => true
  | _ => false

/-- Recogniser for tabular log-row events. -/
def isLogRow : Event → Bool
  | .logRow _ _ _ => true
  | _ => false

/-- Recogniser for `plot_comparison` events. -/
def isPlot : Event → Bool
  | .plot _ => true
  | _ => false

/-- Recogniser for dataset-construction events. -/
def isConstructDataset : Event → Bool
  | .constructDataset _ => true
  | _ => false

/-- Recogniser for adapter construction or training events. -/
def isAdapterEvent : Event → Bool
  | .constructAdapter _ _ _ => true
  | .fit _ _ _ _ => true
  | _ => false

/-- Number of dataset constructions in a trace. -/
def countCD (l : List Event) : ℕ := l.countP isConstructDataset

theorem mem_logRowsFor (w : World) (v : Variant) (file atype : String) (e : Event)
    (he : e ∈ logRowsFor w v file atype) : ∃ i L k, e = Event.logRow i L k := by
  unfold logRowsFor at he
  rcases h : (w.fitLosses file).getLast? with _ | L <;> rw [h] at he
  · simp at he
  · simp only [List.mem_cons, List.mem_map] at he
    rcases he with he | ⟨p, _, he⟩
    · exact ⟨_, _, _, he⟩
    · exact ⟨_, _, _, he.symm⟩

theorem filter_logRowsFor_eq_nil (w : World) (v : Variant) (file atype : String)
    (q : Event → Bool) (hq : ∀ i L k, q (Event.logRow i L k) = false) :
    (logRowsFor w v file atype).filter q = [] := by
  rw [List.filter_eq_nil_iff]
  intro e he
  obtain ⟨i, L, k, rfl⟩ := mem_logRowsFor w v file atype e he
  simp [hq]

theorem filter_logRowsFor_self (w : World) (v : Variant) (file atype : String) :
    (logRowsFor w v file atype).filter isLogRow = logRowsFor w v file atype := by
  rw [List.filter_eq_self]
  intro e he
  obtain ⟨i, L, k, rfl⟩ := mem_logRowsFor w v file atype e he
  rfl

theorem filter_teEventsFit_isFit (w : World) (v : Variant) (dsNew : Bool)
    (sW sB : ℚ) (file atype : String) :
    (teEventsFit w v dsNew sW sB file atype).filter isFit = [.fit atype file sW sB] := by
  unfold teEventsFit
  cases dsNew <;>
    simp [List.filter_append, isFit,
      filter_logRowsFor_eq_nil w v file atype isFit (fun _ _ _ => rfl)]

theorem filter_teEventsFit_isPlot (w : World) (v : Variant) (dsNew : Bool)
    (sW sB : ℚ) (file atype : String) :
    (teEventsFit w v dsNew sW sB file atype).filter isPlot = [] := by
  unfold teEventsFit
  cases dsNew <;>
    simp [List.filter_append, isPlot,
      filter_logRowsFor_eq_nil w v file atype isPlot (fun _ _ _ => rfl)]

theorem countCD_teEventsFit (w : World) (v : Variant) (dsNew : Bool)
    (sW sB : ℚ) (file atype : String) :
    countCD (teEventsFit w v dsNew sW sB file atype) = if dsNew then 1 else 0 := by
  unfold teEventsFit countCD
  have hlog : (logRowsFor w v file atype).countP isConstructDataset = 0 := by
    have := filter_logRowsFor_eq_nil w v file atype isConstructDataset (fun _ _ _ => rfl)
    simp [List.countP_eq_length_filter, this]
  cases dsNew <;> simp [List.countP_append, isConstructDataset, hlog]

theorem filter_teEventsFit_isLogRow (w : World) (v : Variant) (dsNew : Bool)
    (sW sB : ℚ) (file atype : String) :
    (teEventsFit w v dsNew sW sB file atype).filter isLogRow =
      logRowsFor w v file atype := by
  unfold teEventsFit
  cases dsNew <;>
    simp [List.filter_append, isLogRow, filter_logRowsFor_self w v file atype]

theorem countCD_logRow_map (l : List (ℕ × ℚ)) :
    List.countP (isConstructDataset ∘ fun p => Event.logRow (p.1 : ℤ) p.2 []) l = 0 := by
  rw [List.countP_eq_zero]
  intro p hp
  simp [isConstructDataset, Function.comp]

theorem train_and_evaluate_events_extend (w : World) (v : Variant) (acc : List Event)
    (ds : Option DatasetKind) (sW sB : ℚ) (file atype : String) (force : Bool) :
    ∃ t, (train_and_evaluate w v acc ds sW sB file atype force).events = acc ++ t := by
  by_cases hc : (w.fileExists file && !force) = true
  · exact ⟨[.makedirs file, .loadStateDict atype file, .evaluate atype],
      by simp [train_and_evaluate, hc]⟩
  · rcases hgl : (w.fitLosses file).getLast? with _ | L
    · exact ⟨[.makedirs file] ++ (get_dataset v ds).2.2
          ++ [.fit atype file sW sB, .evaluate atype],
        by simp [train_and_evaluate, hc, hgl, List.append_assoc]⟩
    · exact ⟨[.makedirs file] ++ (get_dataset v ds).2.2
          ++ [.fit atype file sW sB, .evaluate atype]
          ++ [.logRow ((v.num_epochs : ℤ) - 1) L (w.evalKeys atype)]
          ++ (w.fitLosses file).dropLast.enum.map (fun p => .logRow (p.1 : ℤ) p.2 []),
        by simp [train_and_evaluate, hc, hgl, List.append_assoc]⟩

theorem train_and_evaluate_error (w : World) (v : Variant) (acc : List Event)
    (ds : Option DatasetKind) (sW sB : ℚ) (file atype : String) (force : Bool) :
    (train_and_evaluate w v acc ds sW sB file atype force).error = none ∨
    (train_and_evaluate w v acc ds sW sB file atype force).error = some PyError.indexError := by
  by_cases hc : (w.fileExists file && !force) = true
  · right; simp [train_and_evaluate, hc]
  · rcases hgl : (w.fitLosses file).getLast? with _ | L
    · right; simp [train_and_evaluate, hc, hgl]
    · left; simp [train_and_evaluate, hc, hgl]

theorem train_and_evaluate_countCD (w : World) (v : Variant) (acc : List Event)
    (ds : Option DatasetKind) (sW sB : ℚ) (file atype : String) (force : Bool)
    (h1 : countCD acc ≤ 1) (h2 : ds = none → countCD acc = 0) :
    countCD (train_and_evaluate w v acc ds sW sB file atype force).events ≤ 1 ∧
    ((train_and_evaluate w v acc ds sW sB file atype force).dataset = none →
      countCD (train_and_evaluate w v acc ds sW sB file atype force).events = 0) := by
  by_cases hc : (w.fileExists file && !force) = true
  · constructor
    · simp [train_and_evaluate, hc, countCD, List.countP_append, isConstructDataset]
      simpa [countCD] using h1
    · intro hds
      simp only [train_and_evaluate] at hds ⊢
      rw [if_pos hc] at hds ⊢
      simp [countCD, List.countP_append, isConstructDataset] at hds ⊢
      simpa [countCD] using h2 hds
  · cases ds with
    | none =>
      have hacc : countCD acc = 0 := h2 rfl
      rcases hgl : (w.fitLosses file).getLast? with _ | L <;>
        constructor <;>
          simp [train_and_evaluate, hc, hgl, get_dataset, countCD,
            List.countP_append, List.countP_cons, isConstructDataset,
            countCD_logRow_map, List.countP_eq_zero] <;>
          simp [countCD, List.countP_eq_zero] at hacc <;>
          (intro e he; exact hacc e he)
    | some d =>
      rcases hgl : (w.fitLosses file).getLast? with _ | L <;>
        constructor <;>
          simp [train_and_evaluate, hc, hgl, get_dataset, countCD,
            List.countP_append, List.countP_cons, isConstructDataset,
            countCD_logRow_map] <;>
          simpa [countCD] using h1

theorem run_experiment_resume_all (w : World) (v : Variant)
    (h1 : ¬(v.triplet_margin = none ∧ v.loss_type = "triplet"))
    (h2 : v.loss_type ∈ ["triplet", "mse", "bce"])
    (hEx : ∀ p, w.fileExists p = true) :
    run_experiment w v =
      ([Event.loadModel v.model_name, Event.freezeParams,
        Event.constructAdapter "query_adapted" true false,
        Event.makedirs qaFile, Event.loadStateDict "Query-Adapted" qaFile,
        Event.evaluate "Query-Adapted"], some PyError.indexError) := by
  unfold run_experiment
  rw [if_neg h1, if_neg (not_not_intro h2)]
  simp [train_and_evaluate_resume, hEx]

theorem run_experiment_general (w : World) (v : Variant)
    (h1 : ¬(v.triplet_margin = none ∧ v.loss_type = "triplet"))
    (h2 : v.loss_type ∈ ["triplet", "mse", "bce"]) :
    (∃ t, (run_experiment w v).1 =
        Event.loadModel v.model_name :: Event.freezeParams ::
          Event.constructAdapter "query_adapted" true false :: t) ∧
    ((run_experiment w v).2 = none ∨ (run_experiment w v).2 = some PyError.indexError) ∧
    countCD (run_experiment w v).1 ≤ 1 := by
  unfold run_experiment
  rw [if_neg h1, if_neg (not_not_intro h2)]
  dsimp only
  set acc0 := [Event.loadModel v.model_name, Event.freezeParams,
    Event.constructAdapter "query_adapted" true false] with hacc0
  set r1 := train_and_evaluate w v acc0 none (w.initW "query_adapted")
    (w.initB "query_adapted") qaFile "Query-Adapted" false with hr1
  have hext1 := train_and_evaluate_events_extend w v acc0 none (w.initW "query_adapted")
    (w.initB "query_adapted") qaFile "Query-Adapted" false
  rw [← hr1] at hext1
  obtain ⟨t1, ht1⟩ := hext1
  have herr1 := train_and_evaluate_error w v acc0 none (w.initW "query_adapted")
    (w.initB "query_adapted") qaFile "Query-Adapted" false
  rw [← hr1] at herr1
  have hcnt0 : countCD acc0 ≤ 1 := by
    simp [hacc0, countCD, List.countP_cons, List.countP_nil, isConstructDataset]
  have hcnt0' : countCD acc0 = 0 := by
    simp [hacc0, countCD, List.countP_cons, List.countP_nil, isConstructDataset]
  have HC1 := train_and_evaluate_countCD w v acc0 none (w.initW "query_adapted")
    (w.initB "query_adapted") qaFile "Query-Adapted" false hcnt0 (fun _ => hcnt0')
  rw [← hr1] at HC1
  rcases herr1 with hE1 | hE1
  case inr =>
    refine ⟨⟨t1, ?_⟩, ?_, ?_⟩
    · simp [hE1, ht1, hacc0]
    · right; simp [hE1]
    · simpa [hE1] using HC1.1
  simp only [hE1]
  set acc1 := r1.events ++ [Event.constructAdapter "adapted" false false] with hacc1
  set r2 := train_and_evaluate w v acc1 r1.dataset (w.initW "adapted")
    (w.initB "adapted") adFile "Joint" false with hr2
  have hext2 := train_and_evaluate_events_extend w v acc1 r1.dataset (w.initW "adapted")
    (w.initB "adapted") adFile "Joint" false
  rw [← hr2] at hext2
  obtain ⟨t2, ht2⟩ := hext2
  have herr2 := train_and_evaluate_error w v acc1 r1.dataset (w.initW "adapted")
    (w.initB "adapted") adFile "Joint" false
  rw [← hr2] at herr2
  have hcnt1 : countCD acc1 ≤ 1 := by
    simpa [hacc1, countCD, List.countP_append, List.countP_cons, List.countP_nil,
      isConstructDataset] using HC1.1
  have hcnt1' : r1.dataset = none → countCD acc1 = 0 := fun h => by
    simpa [hacc1, countCD, List.countP_append, List.countP_cons, List.countP_nil,
      isConstructDataset] using HC1.2 h
  have HC2 := train_and_evaluate_countCD w v acc1 r1.dataset (w.initW "adapted")
    (w.initB "adapted") adFile "Joint" false hcnt1 hcnt1'
  rw [← hr2] at HC2
  rcases herr2 with hE2 | hE2
  case inr =>
    refine ⟨⟨t1 ++ [Event.constructAdapter "adapted" false false] ++ t2, ?_⟩, ?_, ?_⟩
    · simp [hE2, ht2, hacc1, ht1, hacc0, List.append_assoc]
    · right; simp [hE2]
    · simpa [hE2] using HC2.1
  simp only [hE2]
  set acc2 := r2.events ++ [Event.constructAdapter "query_first" false false,
    Event.copyWeights r1.finalW r1.finalB] with hacc2
  set r3 := train_and_evaluate w v acc2 r2.dataset r1.finalW r1.finalB
    qfFile "Query-First" false with hr3
  have hext3 := train_and_evaluate_events_extend w v acc2 r2.dataset r1.finalW r1.finalB
    qfFile "Query-First" false
  rw [← hr3] at hext3
  obtain ⟨t3, ht3⟩ := hext3
  have herr3 := train_and_evaluate_error w v acc2 r2.dataset r1.finalW r1.finalB
    qfFile "Query-First" false
  rw [← hr3] at herr3
  have hcnt2 : countCD acc2 ≤ 1 := by
    simpa [hacc2, countCD, List.countP_append, List.countP_cons, List.countP_nil,
      isConstructDataset] using HC2.1
  have hcnt2' : r2.dataset = none → countCD acc2 = 0 := fun h => by
    simpa [hacc2, countCD, List.countP_append, List.countP_cons, List.countP_nil,
      isConstructDataset] using HC2.2 h
  have HC3 := train_and_evaluate_countCD w v acc2 r2.dataset r1.finalW r1.finalB
    qfFile "Query-First" false hcnt2 hcnt2'
  rw [← hr3] at HC3
  rcases herr3 with hE3 | hE3
  case inr =>
    refine ⟨⟨t1 ++ [Event.constructAdapter "adapted" false false] ++ t2
        ++ [Event.constructAdapter "query_first" false false,
            Event.copyWeights r1.finalW r1.finalB] ++ t3, ?_⟩, ?_, ?_⟩
    · simp [hE3, ht3, hacc2, ht2, hacc1, ht1, hacc0, List.append_assoc]
    · right; simp [hE3]
    · simpa [hE3] using HC3.1
  simp only [hE3]
  set acc3 := r3.events ++ [Event.constructAdapter "separate" false true] with hacc3
  set r4 := train_and_evaluate w v acc3 r3.dataset (w.initW "separate")
    (w.initB "separate") sepFile "Separate" false with hr4
  have hext4 := train_and_evaluate_events_extend w v acc3 r3.dataset (w.initW "separate")
    (w.initB "separate") sepFile "Separate" false
  rw [← hr4] at hext4
  obtain ⟨t4, ht4⟩ := hext4
  have herr4 := train_and_evaluate_error w v acc3 r3.dataset (w.initW "separate")
    (w.initB "separate") sepFile "Separate" false
  rw [← hr4] at herr4
  have hcnt3 : countCD acc3 ≤ 1 := by
    simpa [hacc3, countCD, List.countP_append, List.countP_cons, List.countP_nil,
      isConstructDataset] using HC3.1
  have hcnt3' : r3.dataset = none → countCD acc3 = 0 := fun h => by
    simpa [hacc3, countCD, List.countP_append, List.countP_cons, List.countP_nil,
      isConstructDataset] using HC3.2 h
  have HC4 := train_and_evaluate_countCD w v acc3 r3.dataset (w.initW "separate")
    (w.initB "separate") sepFile "Separate" false hcnt3 hcnt3'
  rw [← hr4] at HC4
  rcases herr4 with hE4 | hE4
  case inr =>
    refine ⟨⟨t1 ++ [Event.constructAdapter "adapted" false false] ++ t2
        ++ [Event.constructAdapter "query_first" false false,
            Event.copyWeights r1.finalW r1.finalB] ++ t3
        ++ [Event.constructAdapter "separate" false true] ++ t4, ?_⟩, ?_, ?_⟩
    · simp [hE4, ht4, hacc3, ht3, hacc2, ht2, hacc1, ht1, hacc0, List.append_assoc]
    · right; simp [hE4]
    · simpa [hE4] using HC4.1
  simp only [hE4]
  refine ⟨⟨t1 ++ [Event.constructAdapter "adapted" false false] ++ t2
      ++ [Event.constructAdapter "query_first" false false,
          Event.copyWeights r1.finalW r1.finalB] ++ t3
      ++ [Event.constructAdapter "separate" false true] ++ t4
      ++ [Event.getBaseline (baselinePath v), Event.plot plotSeries], ?_⟩, ?_, ?_⟩
  · simp [ht4, hacc3, ht3, hacc2, ht2, hacc1, ht1, hacc0, List.append_assoc]
  · left; trivial
  · simpa [countCD, List.countP_append, List.countP_cons, List.countP_nil,
      isConstructDataset] using HC4.1

/-- A concrete oracle for a fresh run: no weights file exists, `fit` returns two
losses and integer weights, evaluation produces one result key. -/
def wFresh : World :=
  { fileExists := fun _ => false
    fitLosses := fun _ => [2, 5]
    fitW := fun _ => 7
    fitB := fun _ => 8
    loadW := fun _ => 9
    loadB := fun _ => 10
    initW := fun _ => 11
    initB := fun _ => 12
    evalKeys := fun _ => ["ndcg_at_10"] }

/-- A concrete oracle where every weights file already exists (resume scenario). -/
def wAll : World := { wFresh with fileExists := fun _ => true }

/-- A concrete valid triplet-loss variant, matching one grid point of `__main__`. -/
def vT : Variant :=
  { model_name := "all-MiniLM-L6-v2"
    task := "CQADupstackEnglishRetrieval"
    split := "test"
    num_epochs := 15
    lr := 1
    batch_size := 256
    triplet_margin := some 1
    loss_type := "triplet"
    data_negative_sampling := true
    data_synthetic_gen := false
    data_augmentation_threshold := 5
    force := false }

/-- A variant with an unknown loss type. -/
def vBad : Variant := { vT with loss_type := "hinge", triplet_margin := some 1 }

/-- A triplet-loss variant with no `triplet_margin`. -/
def vNoMargin : Variant := { vT with triplet_margin := none }

end AdaptEmbed

namespace AdaptEmbed

/-- C3: Expanding the configuration grids is a deterministic Cartesian product over
the configuration dictionaries: two runs over the same `variants_list` produce the
same sequence of variant dictionaries, and for the grid in `__main__` this sequence
is exactly 12 triplet variants followed by 8 pairwise (mse/bce) variants, 20 in total. -/
theorem C3_grid_expansion :
    (∀ vl₁ vl₂ : List (List (String × List Val)),
        vl₁ = vl₂ → expandVariants vl₁ = expandVariants vl₂) ∧
    mainVariants = sweepGrid tripletGrid ++ sweepGrid pairwiseGrid ∧
    (sweepGrid tripletGrid).length = 4 * 3 ∧
    (sweepGrid pairwiseGrid).length = 4 * 2 ∧
    mainVariants.length = 20 ∧
    ((mainVariants.take 12).map lossOf = List.replicate 12 (some (Val.s "triplet"))) ∧
    (((mainVariants.drop 12).map lossOf).all
      (fun o => o == some (Val.s "mse") || o == some (Val.s "bce")) = true) := by
  refine ⟨fun vl₁ vl₂ h => h ▸ rfl, rfl, ?_, ?_, ?_, ?_, ?_⟩ <;> decide

/-- C1: The claim states that when the weights file exists and force is false,
`train_and_evaluate` loads the saved state dict, evaluates, logs and returns
normally.  The code instead raises `IndexError`: on the resume branch `losses`
stays `[]`, and the first `logger.record_dict` call evaluates `losses[-1]`.
At a concrete variant with an existing checkpoint, the run loads the state
dict and evaluates, but then aborts with `IndexError` and writes no log row. -/
theorem C1_resume_raises_indexError :
    run_experiment wAll vT =
      ([Event.loadModel "all-MiniLM-L6-v2", Event.freezeParams,
        Event.constructAdapter "query_adapted" true false,
        Event.makedirs qaFile, Event.loadStateDict "Query-Adapted" qaFile,
        Event.evaluate "Query-Adapted"], some PyError.indexError) ∧
    (run_experiment wAll vT).1.filter isLogRow = [] := by
  have h := run_experiment_resume_all wAll vT (by decide) (by decide) (fun p => rfl)
  refine ⟨h, ?_⟩
  rw [h]
  simp [isLogRow]

/-- C2: In a fresh exception-free run, `run_experiment` trains and evaluates
exactly four adapter configurations, in order: query-only, joint, query-first
warm-started, separate-embeddings; no adapter type is trained twice and none
is skipped. -/
theorem C2_four_adapters_in_order (w : World) (v : Variant)
    (hM : ¬(v.triplet_margin = none ∧ v.loss_type = "triplet"))
    (hLT : v.loss_type ∈ ["triplet", "mse", "bce"])
    (hEx : ∀ p, w.fileExists p = false)
    (hL : ∀ p, w.fitLosses p ≠ []) :
    (run_experiment w v).1.filter isFit =
      [.fit "Query-Adapted" qaFile (w.initW "query_adapted") (w.initB "query_adapted"),
       .fit "Joint" adFile (w.initW "adapted") (w.initB "adapted"),
       .fit "Query-First" qfFile (w.fitW qaFile) (w.fitB qaFile),
       .fit "Separate" sepFile (w.initW "separate") (w.initB "separate")] := by
  rw [run_experiment_fresh w v hM hLT hEx hL]
  unfold freshEvents
  simp [List.filter_append, filter_teEventsFit_isFit, isFit]

theorem C2_four_adapters_in_order_witness :
    (run_experiment wFresh vT).1.filter isFit =
      [.fit "Query-Adapted" qaFile (wFresh.initW "query_adapted") (wFresh.initB "query_adapted"),
       .fit "Joint" adFile (wFresh.initW "adapted") (wFresh.initB "adapted"),
       .fit "Query-First" qfFile (wFresh.fitW qaFile) (wFresh.fitB qaFile),
       .fit "Separate" sepFile (wFresh.initW "separate") (wFresh.initB "separate")] :=
  C2_four_adapters_in_order wFresh vT (by decide) (by decide)
    (fun _ => rfl) (fun _ => List.cons_ne_nil _ _)

/-- C4: In a fresh exception-free run, the query-first adapter's linear weight
and bias are set equal to the trained query-only adapter's weight and bias: the
copy event carries exactly the weights `fit` produced for the query-only
adapter, it occurs after the query-only adapter's `fit` and before the
query-first adapter's `fit`, and the query-first `fit` starts from those
copied weights. -/
theorem C4_query_first_warm_start (w : World) (v : Variant)
    (hM : ¬(v.triplet_margin = none ∧ v.loss_type = "triplet"))
    (hLT : v.loss_type ∈ ["triplet", "mse", "bce"])
    (hEx : ∀ p, w.fileExists p = false)
    (hL : ∀ p, w.fitLosses p ≠ []) :
    ∃ A B, (run_experiment w v).1 =
        A ++ Event.copyWeights (w.fitW qaFile) (w.fitB qaFile) :: B ∧
      Event.fit "Query-Adapted" qaFile (w.initW "query_adapted") (w.initB "query_adapted") ∈ A ∧
      Event.fit "Query-First" qfFile (w.fitW qaFile) (w.fitB qaFile) ∈ B := by
  rw [run_experiment_fresh w v hM hLT hEx hL]
  refine ⟨[Event.loadModel v.model_name, Event.freezeParams,
      Event.constructAdapter "query_adapted" true false]
      ++ teEventsFit w v true (w.initW "query_adapted") (w.initB "query_adapted") qaFile "Query-Adapted"
      ++ [Event.constructAdapter "adapted" false false]
      ++ teEventsFit w v false (w.initW "adapted") (w.initB "adapted") adFile "Joint"
      ++ [Event.constructAdapter "query_first" false false],
    teEventsFit w v false (w.fitW qaFile) (w.fitB qaFile) qfFile "Query-First"
      ++ [Event.constructAdapter "separate" false true]
      ++ teEventsFit w v false (w.initW "separate") (w.initB "separate") sepFile "Separate"
      ++ [Event.getBaseline (baselinePath v), Event.plot plotSeries], ?_, ?_, ?_⟩
  · simp [freshEvents, List.append_assoc]
  · simp [teEventsFit]
  · simp [teEventsFit]

theorem C4_query_first_warm_start_witness :
    ∃ A B, (run_experiment wFresh vT).1 =
        A ++ Event.copyWeights (wFresh.fitW qaFile) (wFresh.fitB qaFile) :: B ∧
      Event.fit "Query-Adapted" qaFile (wFresh.initW "query_adapted") (wFresh.initB "query_adapted") ∈ A ∧
      Event.fit "Query-First" qfFile (wFresh.fitW qaFile) (wFresh.fitB qaFile) ∈ B :=
  C4_query_first_warm_start wFresh vT (by decide) (by decide)
    (fun _ => rfl) (fun _ => List.cons_ne_nil _ _)

/-- C5: The base model is frozen: the freezing loop leaves every parameter with
`requires_grad = False`, and in every run the `loadModel`/`freezeParams` events
are the first two events of the trace, so every adapter construction and every
adapter training event comes strictly after the freeze. -/
theorem C5_base_model_frozen :
    (∀ ps : List Bool, ∀ b ∈ freezeLoop ps, b = false) ∧
    (∀ (w : World) (v : Variant), (run_experiment w v).1.take 2 = [] ∨
      (run_experiment w v).1.take 2 = [Event.loadModel v.model_name, Event.freezeParams]) ∧
    (∀ (w : World) (v : Variant), ∀ e ∈ (run_experiment w v).1,
      isAdapterEvent e = true → e ∈ (run_experiment w v).1.drop 2) := by
  refine ⟨?_, ?_, ?_⟩
  · intro ps b hb
    unfold freezeLoop at hb
    obtain ⟨a, -, hab⟩ := List.mem_map.mp hb
    exact hab.symm
  · intro w v
    by_cases h1 : v.triplet_margin = none ∧ v.loss_type = "triplet"
    · left; simp [run_experiment, h1]
    · by_cases h2 : v.loss_type ∈ ["triplet", "mse", "bce"]
      · right
        obtain ⟨⟨t, ht⟩, -, -⟩ := run_experiment_general w v h1 h2
        rw [ht]
        rfl
      · left; simp [run_experiment, h1, h2]
  · intro w v e he hAd
    by_cases h1 : v.triplet_margin = none ∧ v.loss_type = "triplet"
    · simp [run_experiment, h1] at he
    · by_cases h2 : v.loss_type ∈ ["triplet", "mse", "bce"]
      · obtain ⟨⟨t, ht⟩, -, -⟩ := run_experiment_general w v h1 h2
        rw [ht] at he ⊢
        simp only [List.mem_cons] at he
        rcases he with rfl | rfl | rfl | he
        · simp [isAdapterEvent] at hAd
        · simp [isAdapterEvent] at hAd
        · simp
        · simp [he]
      · simp [run_experiment, h1, h2] at he

theorem C5_base_model_frozen_witness :
    Event.constructAdapter "query_adapted" true false ∈ (run_experiment wAll vT).1.drop 2 :=
  C5_base_model_frozen.2.2 wAll vT (Event.constructAdapter "query_adapted" true false)
    (by decide) (by decide)

/-- C6: In a fresh exception-free run, results are aggregated and plotted at the
end: `plot_comparison` is called exactly once, as the very last event, right
after the baseline results are fetched for the unadapted base model, and its
series lists the baseline first, then joint, query-only, query-first and
separate. -/
theorem C6_plot_against_baseline (w : World) (v : Variant)
    (hM : ¬(v.triplet_margin = none ∧ v.loss_type = "triplet"))
    (hLT : v.loss_type ∈ ["triplet", "mse", "bce"])
    (hEx : ∀ p, w.fileExists p = false)
    (hL : ∀ p, w.fitLosses p ≠ []) :
    (run_experiment w v).1.filter isPlot = [Event.plot plotSeries] ∧
    plotSeries =
      [("baseline", "Baseline"), ("adapted", "Linear (Joint)"),
       ("query_adapted", "Linear (Query-Only)"), ("query_first", "Linear (Query-First)"),
       ("separate", "Linear (Separate)")] ∧
    (∃ A, (run_experiment w v).1 =
      A ++ [Event.getBaseline (baselinePath v), Event.plot plotSeries]) := by
  refine ⟨?_, rfl, ?_⟩
  · rw [run_experiment_fresh w v hM hLT hEx hL]
    unfold freshEvents
    simp [List.filter_append, filter_teEventsFit_isPlot, isPlot]
  · rw [run_experiment_fresh w v hM hLT hEx hL]
    refine ⟨[Event.loadModel v.model_name, Event.freezeParams,
        Event.constructAdapter "query_adapted" true false]
        ++ teEventsFit w v true (w.initW "query_adapted") (w.initB "query_adapted") qaFile "Query-Adapted"
        ++ [Event.constructAdapter "adapted" false false]
        ++ teEventsFit w v false (w.initW "adapted") (w.initB "adapted") adFile "Joint"
        ++ [Event.constructAdapter "query_first" false false,
            Event.copyWeights (w.fitW qaFile) (w.fitB qaFile)]
        ++ teEventsFit w v false (w.fitW qaFile) (w.fitB qaFile) qfFile "Query-First"
        ++ [Event.constructAdapter "separate" false true]
        ++ teEventsFit w v false (w.initW "separate") (w.initB "separate") sepFile "Separate", ?_⟩
    simp [freshEvents, List.append_assoc]

theorem C6_plot_against_baseline_witness :
    (run_experiment wFresh vT).1.filter isPlot = [Event.plot plotSeries] :=
  (C6_plot_against_baseline wFresh vT (by decide) (by decide)
    (fun _ => rfl) (fun _ => List.cons_ne_nil _ _)).1

/-- C7: Per-variant directory and logging isolation: the four adapter contexts
use four pairwise-distinct `adapter_type` values, each weights file is the
expected name under that context's snapshot directory, and the four weights
file paths are pairwise distinct. -/
theorem C7_distinct_weight_paths :
    qaFile = snapshotDir "query_adapted" ++ "/weights_query_adapted.pt" ∧
    adFile = snapshotDir "adapted" ++ "/weights.pt" ∧
    qfFile = snapshotDir "query_first" ++ "/weights_query_first.pt" ∧
    sepFile = snapshotDir "separate" ++ "/weights_separate.pt" ∧
    List.Nodup ["query_adapted", "adapted", "query_first", "separate"] ∧
    List.Nodup [qaFile, adFile, qfFile, sepFile] := by
  refine ⟨rfl, rfl, rfl, rfl, ?_, ?_⟩ <;> decide

/-- C8: `run_experiment` raises `ValueError` if and only if the variant's
loss type is not one of triplet/mse/bce, or it is triplet with no
triplet margin; and when it raises, the trace is empty — no model load,
training, logging or file writing has occurred. -/
theorem C8_valueError_iff (w : World) (v : Variant) :
    ((∃ m, (run_experiment w v).2 = some (PyError.valueError m)) ↔
      (¬ v.loss_type ∈ ["triplet", "mse", "bce"] ∨
        (v.loss_type = "triplet" ∧ v.triplet_margin = none))) ∧
    (∀ m, (run_experiment w v).2 = some (PyError.valueError m) →
      (run_experiment w v).1 = []) := by
  by_cases h1 : v.triplet_margin = none ∧ v.loss_type = "triplet"
  · refine ⟨⟨fun _ => Or.inr ⟨h1.2, h1.1⟩, fun _ => ?_⟩, fun m _ => ?_⟩
    · exact ⟨"Must provide triplet_margin if using triplet loss.",
        by simp [run_experiment, h1]⟩
    · simp [run_experiment, h1]
  · by_cases h2 : v.loss_type ∈ ["triplet", "mse", "bce"]
    · obtain ⟨-, hsnd, -⟩ := run_experiment_general w v h1 h2
      refine ⟨⟨?_, ?_⟩, ?_⟩
      · rintro ⟨m, hm⟩
        rcases hsnd with h | h <;> rw [h] at hm <;> simp at hm
      · rintro (h | ⟨hT, hN⟩)
        · exact absurd h2 h
        · exact absurd ⟨hN, hT⟩ h1
      · intro m hm
        rcases hsnd with h | h <;> rw [h] at hm <;> simp at hm
    · refine ⟨⟨fun _ => Or.inl h2, fun _ => ?_⟩, fun m _ => ?_⟩
      · exact ⟨"Invalid loss type: " ++ v.loss_type,
          by simp [run_experiment, h1, h2]⟩
      · simp [run_experiment, h1, h2]

theorem C8_valueError_iff_witness :
    ∃ m, (run_experiment wFresh vBad).2 = some (PyError.valueError m) :=
  (C8_valueError_iff wFresh vBad).1.mpr (Or.inl (by decide))

/-- C9: `get_dataset` is idempotent and memoized: with a filled memo cell it
returns the same object and constructs nothing; with an empty cell it
constructs `TripletDataset` exactly when the loss type is triplet and
`PairwiseScoreDataset` otherwise; across any whole `run_experiment` run the
dataset is constructed at most once; and when every adapter has an existing
checkpoint, no dataset is constructed at all. -/
theorem C9_dataset_memoization :
    (∀ (v : Variant) (d : DatasetKind), get_dataset v (some d) = (d, some d, [])) ∧
    (∀ v : Variant, get_dataset v none =
      (datasetFor v, some (datasetFor v), [Event.constructDataset (datasetFor v)])) ∧
    (∀ v : Variant, datasetFor v = DatasetKind.tripletDataset ↔ v.loss_type = "triplet") ∧
    (∀ v : Variant, v.loss_type ≠ "triplet" →
      datasetFor v = DatasetKind.pairwiseScoreDataset) ∧
    (∀ (w : World) (v : Variant), countCD (run_experiment w v).1 ≤ 1) ∧
    (∀ (w : World) (v : Variant), (∀ p, w.fileExists p = true) →
      countCD (run_experiment w v).1 = 0) := by
  refine ⟨fun v d => rfl, fun v => rfl, ?_, ?_, ?_, ?_⟩
  · intro v
    unfold datasetFor
    by_cases h : v.loss_type = "triplet" <;> simp [h]
  · intro v h
    simp [datasetFor, h]
  · intro w v
    by_cases h1 : v.triplet_margin = none ∧ v.loss_type = "triplet"
    · simp [run_experiment, h1, countCD]
    · by_cases h2 : v.loss_type ∈ ["triplet", "mse", "bce"]
      · exact (run_experiment_general w v h1 h2).2.2
      · simp [run_experiment, h1, h2, countCD]
  · intro w v hEx
    by_cases h1 : v.triplet_margin = none ∧ v.loss_type = "triplet"
    · simp [run_experiment, h1, countCD]
    · by_cases h2 : v.loss_type ∈ ["triplet", "mse", "bce"]
      · rw [run_experiment_resume_all w v h1 h2 hEx]
        simp [countCD, List.countP_cons, List.countP_nil, isConstructDataset]
      · simp [run_experiment, h1, h2, countCD]

theorem C9_dataset_memoization_witness :
    countCD (run_experiment wAll vT).1 = 0 :=
  C9_dataset_memoization.2.2.2.2.2 wAll vT (fun _ => rfl)

/-- C10: Within a training `train_and_evaluate` call, the log row for the final
epoch (`num_epochs - 1`, carrying the last loss together with the evaluation
result keys) is written first, and only afterwards come the rows for epochs `0`
through `len(losses) - 2`, in increasing epoch order, each carrying only its
epoch and loss. -/
theorem C10_final_epoch_row_first (w : World) (v : Variant) (acc : List Event)
    (ds : Option DatasetKind) (sW sB : ℚ) (file atype : String)
    (hEx : w.fileExists file = false) (hL : w.fitLosses file ≠ []) :
    ∃ lastLoss, (w.fitLosses file).getLast? = some lastLoss ∧
      (train_and_evaluate w v acc ds sW sB file atype false).events.filter isLogRow =
        acc.filter isLogRow ++
          Event.logRow ((v.num_epochs : ℤ) - 1) lastLoss (w.evalKeys atype) ::
            (w.fitLosses file).dropLast.enum.map (fun p => Event.logRow (p.1 : ℤ) p.2 []) ∧
      (w.fitLosses file).dropLast.enum.map Prod.fst =
        List.range ((w.fitLosses file).length - 1) := by
  have h1 : (w.fitLosses file).getLast?.isSome := List.getLast?_isSome.mpr hL
  obtain ⟨L, hGL⟩ := Option.isSome_iff_exists.mp h1
  refine ⟨L, hGL, ?_, ?_⟩
  · rw [train_and_evaluate_fresh w v acc ds sW sB file atype hEx hL]
    rw [List.filter_append, filter_teEventsFit_isLogRow]
    unfold logRowsFor
    rw [hGL]
  · rw [List.enum_map_fst, List.length_dropLast]

theorem C10_final_epoch_row_first_witness :
    ∃ lastLoss, (wFresh.fitLosses qaFile).getLast? = some lastLoss ∧
      (train_and_evaluate wFresh vT [] none 1 2 qaFile "Query-Adapted" false).events.filter isLogRow =
        List.filter isLogRow [] ++
          Event.logRow ((vT.num_epochs : ℤ) - 1) lastLoss (wFresh.evalKeys "Query-Adapted") ::
            (wFresh.fitLosses qaFile).dropLast.enum.map (fun p => Event.logRow (p.1 : ℤ) p.2 []) ∧
      (wFresh.fitLosses qaFile).dropLast.enum.map Prod.fst =
        List.range ((wFresh.fitLosses qaFile).length - 1) :=
  C10_final_epoch_row_first wFresh vT [] none 1 2 qaFile "Query-Adapted"
    rfl (List.cons_ne_nil _ _)

end AdaptEmbed
